import Mathlib

/-!
# Verification of the enrichment-and-caching orchestration layer

Shallow embedding of the backend of the disaster-response coordination
platform (`src/frontend/src/App.js`, server portion): the TTL cache helpers
(`getCache`/`setCache`), the Geocoder (`geocodeLocation`), the Location
Extractor (`extractLocationWithGemini`), the Geocode Orchestrator
(`POST /geocode`), the Image Verifier (`verifyImageWithGemini`), the
verify-image route (`POST /disasters/:id/verify-image`), the Resource
Locator (`GET /disasters/:id/resources`) and the incident-creation route
(`POST /disasters`).

Modelling conventions:
* Time is an integer count of milliseconds (the JS `Date.now()` epoch value).
* External collaborators (Supabase, Nominatim, Gemini) are modelled as
  explicit environment records whose fields give the outcome of each call:
  `Except Unit α` distinguishes a thrown transport/provider error from a
  normal response.  `Math.random()` is modelled as a rational in `[0,1)`
  supplied by the environment.
* The shared `cache` table stores arbitrary JSON keyed by strings whose
  prefixes (`geocode_`, `extract_location_`, `verify_image_`) are disjoint
  and each written only by one component; it is modelled as one typed store
  per component, each an instance of the same generic `CacheStore`.
* Each component returns an outcome record carrying its JS return value,
  the cache store after the call, and the number of external-provider
  invocations the call performed, so that cache-hit/provider-call claims
  are statable.
-/

namespace DisasterPlatform

/-- One row of the `cache` table visible to a single component:
the stored JSON `value` and its `expires_at` timestamp (ms). -/
structure CacheEntry (V : Type) where
  value : V
  expires_at : Int
deriving DecidableEq

/-- The `cache` table restricted to one component's key prefix:
a partial map from key to its (unique, upserted) row. -/
def CacheStore (V : Type) : Type := String → Option (CacheEntry V)

/-- Model of `getCache(key)` from App.js: selects the row for `key` and returns
its value only when `new Date(data.expires_at) > new Date()`, i.e. when
the expiry lies strictly in the future; otherwise returns `null`. -/
def getCache {V : Type} (store : CacheStore V) (now : Int) (key : String) :
    Option V :=
  match store key with
  | some entry => if now < entry.expires_at then some entry.value else none
  | none => none

/-- Model of `setCache(key, value, ttlMinutes = 60)` from App.js: upserts the row
for `key` with `expires_at = Date.now() + ttlMinutes * 60 * 1000`.
The call at the default TTL passes `ttlMinutes = 60` explicitly here. -/
def setCache {V : Type} (store : CacheStore V) (now : Int) (key : String)
    (value : V) (ttlMinutes : Int) : CacheStore V :=
  fun k =>
    if k = key then some ⟨value, now + ttlMinutes * 60 * 1000⟩ else store k

/-- A geographic coordinate pair, `{lat, lng}`.  The JS numbers produced by
`parseFloat` are modelled as rationals. -/
structure Coords where
  lat : ℚ
  lng : ℚ
deriving DecidableEq

/-- C5: a value set at time `w` with TTL `t` minutes is returned by `getCache`
at any time strictly before `w + t·60000` ms, and any `getCache` at a time
strictly after `w + t·60000` ms behaves identically to a miss (returns the
miss result `none`, never the stored value). -/
theorem getCache_setCache_ttl {V : Type} (store : CacheStore V)
    (w now t : Int) (key : String) (value : V) :
    (now < w + t * 60 * 1000 →
      getCache (setCache store w key value t) now key = some value) ∧
    (w + t * 60 * 1000 < now →
      getCache (setCache store w key value t) now key = none) := by
  constructor
  · intro h
    simp [getCache, setCache, h]
  · intro h
    simp [getCache, setCache]
    omega

/-- The empty cache store over a value type. -/
def emptyStore (V : Type) : CacheStore V := fun _ => none

/-- Witness for C5 at a concrete store, key, value and times. -/
theorem getCache_setCache_ttl_witness :
    getCache (setCache (emptyStore Nat) 0 "k" 42 60) 5 "k" = some 42 ∧
    getCache (setCache (emptyStore Nat) 0 "k" 42 60) 4000000 "k" = none :=
  ⟨(getCache_setCache_ttl (emptyStore Nat) 0 5 60 "k" 42).1 (by decide),
   (getCache_setCache_ttl (emptyStore Nat) 0 4000000 60 "k" 42).2 (by decide)⟩

/-! ## Geocoder (`geocodeLocation`) -/

/-- Behaviour of the external Nominatim forward-geocoding provider on a
query string: `.error ()` is a thrown transport/provider error, `.ok none`
is a successful response with zero matches (`response.data[0]` undefined),
`.ok (some c)` is a successful response whose single best match parses to
the coordinates `c` (the `parseFloat` of `lat`/`lon` is abstracted to the
parsed rationals). -/
structure GeoProvider where
  search : String → Except Unit (Option Coords)

/-- Outcome of one `geocodeLocation` call: its JS return value (`null`
modelled as `none`), the geocode cache store after the call and the number
of provider requests the call issued. -/
structure GeoOutcome where
  result : Option Coords
  store : CacheStore Coords
  providerCalls : Nat

/-- Model of `geocodeLocation(locationName)` from App.js: consult the cache under
`"geocode_" + locationName` (a returned coords object is always truthy);
on miss, query Nominatim with `limit: 1`; when a match exists, cache it at
the default TTL and return it; on zero matches fall through, and on a
thrown error catch and log — both paths `return null` with nothing
cached. -/
def geocodeLocation (env : GeoProvider) (store : CacheStore Coords)
    (now : Int) (locationName : String) : GeoOutcome :=
  let cacheKey := "geocode_" ++ locationName
  match getCache store now cacheKey with
  | some cached => ⟨some cached, store, 0⟩
  | none =>
    match env.search locationName with
    | .error _ => ⟨none, store, 1⟩
    | .ok none => ⟨none, store, 1⟩
    | .ok (some coords) =>
        ⟨some coords, setCache store now cacheKey coords 60, 1⟩

/-- C4: on a cache miss, a provider response with zero matches and a thrown
transport/provider error produce the very same outcome: the call reports
the `null` "not found" result (not a distinct error branch) and the cache
is left unchanged, so no entry is written for that place name. -/
theorem geocodeLocation_notFound_and_error_agree (env : GeoProvider)
    (store : CacheStore Coords) (now : Int) (p : String)
    (hmiss : getCache store now ("geocode_" ++ p) = none)
    (h : env.search p = .ok none ∨ env.search p = .error ()) :
    geocodeLocation env store now p = ⟨none, store, 1⟩ := by
  unfold geocodeLocation
  rcases h with h | h <;> simp [hmiss, h]

/-- Witness for C4: an empty store together with a zero-match provider and
an erroring provider, both at the place name `"Atlantis"`. -/
theorem geocodeLocation_notFound_and_error_agree_witness :
    geocodeLocation ⟨fun _ => .ok none⟩ (emptyStore Coords) 0 "Atlantis" =
        ⟨none, emptyStore Coords, 1⟩ ∧
    geocodeLocation ⟨fun _ => .error ()⟩ (emptyStore Coords) 0 "Atlantis" =
        ⟨none, emptyStore Coords, 1⟩ :=
  ⟨geocodeLocation_notFound_and_error_agree ⟨fun _ => .ok none⟩
      (emptyStore Coords) 0 "Atlantis" rfl (Or.inl rfl),
   geocodeLocation_notFound_and_error_agree ⟨fun _ => .error ()⟩
      (emptyStore Coords) 0 "Atlantis" rfl (Or.inr rfl)⟩

/-- C9: with the store holding a live (unexpired at both call times)
coordinates entry for `p`'s geocode key, two successive `geocodeLocation`
calls on `p` return the identical coordinates and issue zero provider
requests on both calls. -/
theorem geocodeLocation_cached_twice (env : GeoProvider)
    (store : CacheStore Coords) (now₁ now₂ : Int) (p : String) (c : Coords)
    (exp : Int) (hstore : store ("geocode_" ++ p) = some ⟨c, exp⟩)
    (h₁ : now₁ < exp) (h₂ : now₂ < exp) :
    geocodeLocation env store now₁ p = ⟨some c, store, 0⟩ ∧
    geocodeLocation env
        (geocodeLocation env store now₁ p).store now₂ p =
      ⟨some c, store, 0⟩ := by
  have hget₁ : getCache store now₁ ("geocode_" ++ p) = some c := by
    simp [getCache, hstore, h₁]
  have hget₂ : getCache store now₂ ("geocode_" ++ p) = some c := by
    simp [getCache, hstore, h₂]
  have hfirst : geocodeLocation env store now₁ p = ⟨some c, store, 0⟩ := by
    unfold geocodeLocation
    simp [hget₁]
  refine ⟨hfirst, ?_⟩
  rw [hfirst]
  unfold geocodeLocation
  simp [hget₂]

/-- Witness for C9: a store primed with live coordinates for `"Paris"`,
queried twice at times 10 and 20 against an erroring provider (which is
never reached). -/
theorem geocodeLocation_cached_twice_witness :
    geocodeLocation ⟨fun _ => .error ()⟩
        (setCache (emptyStore Coords) 0 "geocode_Paris" ⟨48, 2⟩ 60) 10
        "Paris" =
      ⟨some ⟨48, 2⟩,
        setCache (emptyStore Coords) 0 "geocode_Paris" ⟨48, 2⟩ 60, 0⟩ ∧
    geocodeLocation ⟨fun _ => .error ()⟩
        (geocodeLocation ⟨fun _ => .error ()⟩
            (setCache (emptyStore Coords) 0 "geocode_Paris" ⟨48, 2⟩ 60) 10
            "Paris").store 20 "Paris" =
      ⟨some ⟨48, 2⟩,
        setCache (emptyStore Coords) 0 "geocode_Paris" ⟨48, 2⟩ 60, 0⟩ :=
  geocodeLocation_cached_twice ⟨fun _ => .error ()⟩
    (setCache (emptyStore Coords) 0 "geocode_Paris" ⟨48, 2⟩ 60) 10 20
    "Paris" ⟨48, 2⟩ 3600000 (by decide) (by decide) (by decide)

/-! ## Location Extractor (`extractLocationWithGemini`) and the
`POST /geocode` orchestrator -/

/-- Behaviour of the Gemini text-generation endpoint on an input text:
`.error ()` is a thrown transport/provider error, `.ok none` a successful
response whose `candidates[0].content.parts[0].text` optional chain is
absent, `.ok (some raw)` a present raw text (before `.trim()`). -/
structure ExtractProvider where
  generate : String → Except Unit (Option String)

/-- Outcome of one `extractLocationWithGemini` call: its JS return value
(`null` as `none`), the extraction cache store after the call and the
number of provider requests issued. -/
structure ExtractOutcome where
  result : Option String
  store : CacheStore String
  providerCalls : Nat

/-- Model of `extractLocationWithGemini(text)` from App.js: consult the cache under
`"extract_location_" + text` (a cached string is truthy only when
non-empty); on miss, ask Gemini, trim the response text, and only a truthy
(non-empty, present) trimmed name is cached at the default TTL and
returned; an absent/empty response and a thrown error both yield `null`
with nothing cached. -/
def extractLocationWithGemini (env : ExtractProvider)
    (store : CacheStore String) (now : Int) (text : String) :
    ExtractOutcome :=
  let cacheKey := "extract_location_" ++ text
  let fetch : ExtractOutcome :=
    match env.generate text with
    | .error _ => ⟨none, store, 1⟩
    | .ok none => ⟨none, store, 1⟩
    | .ok (some raw) =>
        let locationName := raw.trim
        if locationName = "" then ⟨none, store, 1⟩
        else
          ⟨some locationName,
            setCache store now cacheKey locationName 60, 1⟩
  match getCache store now cacheKey with
  | some cached => if cached = "" then fetch else ⟨some cached, store, 0⟩
  | none => fetch

/-- HTTP response of `POST /geocode`: 200 with the location name and
coordinates, or 400 with an error message. -/
inductive GeocodeResponse
  | ok (locationName : String) (coords : Coords)
  | badRequest (error : String)
deriving DecidableEq

/-- Outcome of one `POST /geocode` request: the response, both cache
stores after the request, and the provider requests issued to each
external service. -/
structure GeocodeRouteOutcome where
  response : GeocodeResponse
  extractStore : CacheStore String
  geocodeStore : CacheStore Coords
  geminiCalls : Nat
  nominatimCalls : Nat

/-- The `POST /geocode` handler from App.js: extract a location name from
the text; when that is falsy (`null`/empty) respond
`400 Could not extract location` without ever invoking the geocoding
stage; otherwise geocode the name, responding
`400 Could not geocode location` when that yields `null`, and 200 with
`{locationName, coordinates}` otherwise. -/
def geocodeRoute (extractEnv : ExtractProvider) (geoEnv : GeoProvider)
    (extractStore : CacheStore String) (geocodeStore : CacheStore Coords)
    (now : Int) (text : String) : GeocodeRouteOutcome :=
  let ext := extractLocationWithGemini extractEnv extractStore now text
  match ext.result with
  | none =>
      ⟨.badRequest "Could not extract location", ext.store, geocodeStore,
        ext.providerCalls, 0⟩
  | some locationName =>
      if locationName = "" then
        ⟨.badRequest "Could not extract location", ext.store, geocodeStore,
          ext.providerCalls, 0⟩
      else
        let geo := geocodeLocation geoEnv geocodeStore now locationName
        match geo.result with
        | none =>
            ⟨.badRequest "Could not geocode location", ext.store, geo.store,
              ext.providerCalls, geo.providerCalls⟩
        | some coords =>
            ⟨.ok locationName coords, ext.store, geo.store,
              ext.providerCalls, geo.providerCalls⟩

/-- C3: when the extraction cache holds nothing truthy for the text and the
extractor yields no location (thrown provider error, absent response text,
or a response that trims to empty), the `POST /geocode` handler
short-circuits: it responds with the 400 `Could not extract location`
error, the geocoding stage issues zero provider requests, and neither the
extraction cache nor the geocoding cache is written. -/
theorem geocodeRoute_no_location_short_circuits
    (extractEnv : ExtractProvider) (geoEnv : GeoProvider)
    (extractStore : CacheStore String) (geocodeStore : CacheStore Coords)
    (now : Int) (text : String)
    (hmiss : getCache extractStore now ("extract_location_" ++ text) = none ∨
      getCache extractStore now ("extract_location_" ++ text) = some "")
    (hnoloc : extractEnv.generate text = .error () ∨
      extractEnv.generate text = .ok none ∨
      ∃ raw, extractEnv.generate text = .ok (some raw) ∧ raw.trim = "") :
    geocodeRoute extractEnv geoEnv extractStore geocodeStore now text =
      ⟨.badRequest "Could not extract location", extractStore, geocodeStore,
        1, 0⟩ := by
  have hext : extractLocationWithGemini extractEnv extractStore now text =
      ⟨none, extractStore, 1⟩ := by
    unfold extractLocationWithGemini
    rcases hnoloc with h | h | ⟨raw, h, htrim⟩
    · rcases hmiss with hm | hm <;> simp [hm, h]
    · rcases hmiss with hm | hm <;> simp [hm, h]
    · rcases hmiss with hm | hm <;> simp [hm, h, htrim]
  unfold geocodeRoute
  rw [hext]

/-- Witness for C3: an empty extraction cache and a Gemini response with no
text part, on the input `"hello"`. -/
theorem geocodeRoute_no_location_short_circuits_witness :
    geocodeRoute ⟨fun _ => .ok none⟩ ⟨fun _ => .error ()⟩
        (emptyStore String) (emptyStore Coords) 0 "hello" =
      ⟨.badRequest "Could not extract location", emptyStore String,
        emptyStore Coords, 1, 0⟩ :=
  geocodeRoute_no_location_short_circuits ⟨fun _ => .ok none⟩
    ⟨fun _ => .error ()⟩ (emptyStore String) (emptyStore Coords) 0 "hello"
    (Or.inl rfl) (Or.inr (Or.inl rfl))

/-! ## Image Verifier (`verifyImageWithGemini`) and
`POST /disasters/:id/verify-image` -/

/-- A `VerificationResult`:
`{score, reasoning, status}` as built by `verifyImageWithGemini`. -/
structure VerificationResult where
  score : Int
  reasoning : String
  status : String
deriving DecidableEq

/-- Behaviour of the Gemini vision/language call for the authenticity
prompt on an image URL (`.error ()` a thrown provider error, `.ok text`
the response text), together with the `Math.random()` draw this call
would consume, a real number in `[0,1)` modelled as a rational. -/
structure VerifyProvider where
  generate : String → Except Unit String
  random : ℚ

/-- Model of `Math.floor(Math.random() * 3) + 7` from App.js — the mock score. -/
def mockScore (x : ℚ) : Int := ⌊x * 3⌋ + 7

/-- Outcome of one `verifyImageWithGemini` call: its JS return value, the
verification cache store after the call and the number of provider
requests issued. -/
structure VerifyOutcome where
  result : VerificationResult
  store : CacheStore VerificationResult
  providerCalls : Nat

/-- Model of `verifyImageWithGemini(imageUrl)` from App.js: consult the cache under
`"verify_image_" + imageUrl` (a cached result object is always truthy); on
miss, invoke the provider; on success build
`{score: Math.floor(Math.random()*3)+7, reasoning: text.trim(),
status: 'verified'}`, cache it at the default TTL and return it; on a
thrown provider error catch, log and return
`{score: 5, reasoning: 'Unable to verify', status: 'pending'}` directly —
the catch branch performs no `setCache`. -/
def verifyImageWithGemini (env : VerifyProvider)
    (store : CacheStore VerificationResult) (now : Int) (imageUrl : String) :
    VerifyOutcome :=
  let cacheKey := "verify_image_" ++ imageUrl
  match getCache store now cacheKey with
  | some cached => ⟨cached, store, 0⟩
  | none =>
    match env.generate imageUrl with
    | .ok text =>
        let verification : VerificationResult :=
          ⟨mockScore env.random, text.trim, "verified"⟩
        ⟨verification, setCache store now cacheKey verification 60, 1⟩
    | .error _ => ⟨⟨5, "Unable to verify", "pending"⟩, store, 1⟩

/-- Shared shape of the provider-failure branch of `verifyImageWithGemini`
on a cache miss: the fixed degraded result is returned, the store is left
untouched, and one provider request was issued. -/
theorem verifyImageWithGemini_failure (env : VerifyProvider)
    (store : CacheStore VerificationResult) (now : Int) (url : String)
    (hmiss : getCache store now ("verify_image_" ++ url) = none)
    (hfail : env.generate url = .error ()) :
    verifyImageWithGemini env store now url =
      ⟨⟨5, "Unable to verify", "pending"⟩, store, 1⟩ := by
  unfold verifyImageWithGemini
  simp [hmiss, hfail]

/-- C1 counterexample: with an empty cache and a failing provider, the
degraded result is returned but it is NOT written to the cache (the key
still maps to nothing afterwards), and a repeated call for the same URL
within any window re-invokes the provider (one provider request, not
zero), contrary to the claim that the degraded result is cached like a
success and served from cache on the repeat call. -/
theorem verifyImage_failure_caching_counterexample :
    (verifyImageWithGemini ⟨fun _ => .error (), 0⟩
        (emptyStore VerificationResult) 0 "u").result =
      ⟨5, "Unable to verify", "pending"⟩ ∧
    (verifyImageWithGemini ⟨fun _ => .error (), 0⟩
        (emptyStore VerificationResult) 0 "u").store ("verify_image_" ++ "u") =
      none ∧
    (verifyImageWithGemini ⟨fun _ => .error (), 0⟩
        (verifyImageWithGemini ⟨fun _ => .error (), 0⟩
            (emptyStore VerificationResult) 0 "u").store 1 "u").providerCalls =
      1 :=
  ⟨rfl, rfl, rfl⟩

/-- C1 as amended: on a provider failure (with no live cached result for
the URL), the Image Verifier returns the fixed degraded result
`{score: 5, reasoning: 'Unable to verify', status: 'pending'}`, but this
degraded result is NOT written to the cache: the store is unchanged, and a
repeated call for the same URL at the same time re-invokes the provider
instead of being served from cache. -/
theorem verifyImage_failure_degraded_uncached (env : VerifyProvider)
    (store : CacheStore VerificationResult) (now : Int) (url : String)
    (hmiss : getCache store now ("verify_image_" ++ url) = none)
    (hfail : env.generate url = .error ()) :
    verifyImageWithGemini env store now url =
      ⟨⟨5, "Unable to verify", "pending"⟩, store, 1⟩ ∧
    (verifyImageWithGemini env
        (verifyImageWithGemini env store now url).store now url).providerCalls =
      1 := by
  have h := verifyImageWithGemini_failure env store now url hmiss hfail
  refine ⟨h, ?_⟩
  rw [h, verifyImageWithGemini_failure env store now url hmiss hfail]

/-- Witness for amended C1: empty cache, always-failing provider,
URL `"u"`. -/
theorem verifyImage_failure_degraded_uncached_witness :
    verifyImageWithGemini ⟨fun _ => .error (), 0⟩
        (emptyStore VerificationResult) 0 "u" =
      ⟨⟨5, "Unable to verify", "pending"⟩, emptyStore VerificationResult, 1⟩ ∧
    (verifyImageWithGemini ⟨fun _ => .error (), 0⟩
        (verifyImageWithGemini ⟨fun _ => .error (), 0⟩
            (emptyStore VerificationResult) 0 "u").store 0 "u").providerCalls =
      1 :=
  verifyImage_failure_degraded_uncached ⟨fun _ => .error (), 0⟩
    (emptyStore VerificationResult) 0 "u" rfl rfl

/-- C2: on a cache miss with a successful provider call, the score of the
produced `VerificationResult` is the independently drawn
`Math.floor(random*3)+7`, an integer between 7 and 10 inclusive — it does
not depend on the provider's free text (any two successful response texts
yield the same score for the same draw) — while the reasoning string is
the provider's response text (trimmed). -/
theorem verifyImage_success_score_range (env : VerifyProvider)
    (store : CacheStore VerificationResult) (now : Int) (url : String)
    (t : String)
    (hmiss : getCache store now ("verify_image_" ++ url) = none)
    (hok : env.generate url = .ok t)
    (hr0 : 0 ≤ env.random) (hr1 : env.random < 1) :
    (7 ≤ (verifyImageWithGemini env store now url).result.score ∧
      (verifyImageWithGemini env store now url).result.score ≤ 10) ∧
    (verifyImageWithGemini env store now url).result.reasoning = t.trim ∧
    ∀ env' : VerifyProvider, env'.random = env.random → ∀ t' : String,
      env'.generate url = .ok t' →
      (verifyImageWithGemini env' store now url).result.score =
        (verifyImageWithGemini env store now url).result.score := by
  have hres : verifyImageWithGemini env store now url =
      ⟨⟨mockScore env.random, t.trim, "verified"⟩,
        setCache store now ("verify_image_" ++ url)
          ⟨mockScore env.random, t.trim, "verified"⟩ 60, 1⟩ := by
    unfold verifyImageWithGemini
    simp [hmiss, hok]
  have hfloor0 : (0 : ℤ) ≤ ⌊env.random * 3⌋ :=
    Int.floor_nonneg.mpr (by positivity)
  have hfloor3 : ⌊env.random * 3⌋ < 3 := by
    have hlt : env.random * 3 < 3 := by nlinarith
    exact Int.floor_lt.mpr (by exact_mod_cast hlt)
  refine ⟨⟨?_, ?_⟩, ?_, ?_⟩
  · rw [hres]
    show (7 : ℤ) ≤ mockScore env.random
    unfold mockScore; omega
  · rw [hres]
    show mockScore env.random ≤ 10
    unfold mockScore; omega
  · rw [hres]
  · intro env' hrand t' hok'
    have hres' : verifyImageWithGemini env' store now url =
        ⟨⟨mockScore env'.random, t'.trim, "verified"⟩,
          setCache store now ("verify_image_" ++ url)
            ⟨mockScore env'.random, t'.trim, "verified"⟩ 60, 1⟩ := by
      unfold verifyImageWithGemini
      simp [hmiss, hok']
    rw [hres, hres', hrand]

/-- Witness for C2: empty cache, provider answering `" Looks real "` for
every prompt, random draw `0`. -/
theorem verifyImage_success_score_range_witness :
    (7 ≤ (verifyImageWithGemini ⟨fun _ => .ok " Looks real ", 0⟩
        (emptyStore VerificationResult) 0 "u").result.score ∧
      (verifyImageWithGemini ⟨fun _ => .ok " Looks real ", 0⟩
        (emptyStore VerificationResult) 0 "u").result.score ≤ 10) ∧
    (verifyImageWithGemini ⟨fun _ => .ok " Looks real ", 0⟩
        (emptyStore VerificationResult) 0 "u").result.reasoning =
      " Looks real ".trim ∧
    ∀ env' : VerifyProvider, env'.random = (0 : ℚ) → ∀ t' : String,
      env'.generate "u" = .ok t' →
      (verifyImageWithGemini env' (emptyStore VerificationResult) 0
          "u").result.score =
        (verifyImageWithGemini ⟨fun _ => .ok " Looks real ", 0⟩
            (emptyStore VerificationResult) 0 "u").result.score :=
  verifyImage_success_score_range ⟨fun _ => .ok " Looks real ", 0⟩
    (emptyStore VerificationResult) 0 "u" " Looks real " rfl rfl
    (le_refl 0) zero_lt_one

/-- A row of the `reports` table: `image_url` is nullable and
`verification_status` is the status string (`pending` / `verified`). -/
structure Report where
  id : Nat
  disaster_id : String
  user_id : String
  content : String
  image_url : Option String
  verification_status : String
deriving DecidableEq

/-- The persistence update issued by `POST /disasters/:id/verify-image`:
`supabase.from('reports').update({verification_status})
.eq('image_url', image_url)` — set the status on every row whose
`image_url` equals the given URL (a null `image_url` matches nothing). -/
def updateReportsByImageUrl (reports : List Report) (url : String)
    (status : String) : List Report :=
  reports.map fun r =>
    if r.image_url = some url then { r with verification_status := status }
    else r

/-- Outcome of one `POST /disasters/:id/verify-image` request: the JSON
response (the `VerificationResult`), the verification cache store, the
`reports` table after the update, and the provider requests issued. -/
structure VerifyRouteOutcome where
  response : VerificationResult
  store : CacheStore VerificationResult
  reports : List Report
  providerCalls : Nat

/-- The `POST /disasters/:id/verify-image` handler from App.js: compute
the verification for `image_url` via `verifyImageWithGemini`, then update
`verification_status` on every report row whose `image_url` equals the
body's URL, and respond with the verification.  The `:id` route parameter
is bound but never used by the handler body. -/
def verifyImageRoute (env : VerifyProvider)
    (store : CacheStore VerificationResult) (now : Int)
    (disasterId : String) (imageUrl : String) (reports : List Report) :
    VerifyRouteOutcome :=
  let v := verifyImageWithGemini env store now imageUrl
  ⟨v.result, v.store,
    updateReportsByImageUrl reports imageUrl v.result.status,
    v.providerCalls⟩

/-- C7: after the Image Verifier computes a result, every report whose
`image_url` equals the verified URL has its `verification_status` set to
the result's status — the update is keyed only on `image_url`: reports of
other incidents are updated just the same (the outcome is entirely
independent of the `:id` route parameter), non-matching reports are left
unchanged, and nothing restricts the update to a single triggering
report. -/
theorem verifyImageRoute_updates_every_matching_report
    (env : VerifyProvider) (store : CacheStore VerificationResult)
    (now : Int) (disasterId : String) (url : String)
    (reports : List Report) :
    (∀ r ∈ reports, r.image_url = some url →
      { r with verification_status := (verifyImageRoute env store now disasterId url reports).response.status } ∈ (verifyImageRoute env store now disasterId url reports).reports) ∧
    (∀ r ∈ reports, r.image_url ≠ some url →
      r ∈ (verifyImageRoute env store now disasterId url reports).reports) ∧
    (∀ otherId : String,
      verifyImageRoute env store now otherId url reports =
        verifyImageRoute env store now disasterId url reports) := by
  refine ⟨?_, ?_, fun _ => rfl⟩
  · intro r hr hmatch
    have hmem := List.mem_map_of_mem
      (fun r : Report =>
        if r.image_url = some url then
          { r with verification_status := (verifyImageRoute env store now disasterId url reports).response.status }
        else r) hr
    simpa [verifyImageRoute, updateReportsByImageUrl, hmatch] using hmem
  · intro r hr hmatch
    have hmem := List.mem_map_of_mem
      (fun r : Report =>
        if r.image_url = some url then
          { r with verification_status := (verifyImageRoute env store now disasterId url reports).response.status }
        else r) hr
    simpa [verifyImageRoute, updateReportsByImageUrl, hmatch] using hmem

/-- Two reports belonging to different incidents sharing the image URL
`"http.img"` plus one report without an image. -/
def sampleReports : List Report :=
  [⟨1, "d1", "a", "c1", some "http.img", "pending"⟩,
   ⟨2, "d2", "b", "c2", some "http.img", "pending"⟩,
   ⟨3, "d1", "a", "c3", none, "pending"⟩]

/-- A provider that answers every authenticity prompt with `"real"`. -/
def okProvider : VerifyProvider := ⟨fun _ => .ok "real", 0⟩

/-- Witness for C7: on `sampleReports`, the matching report of the other
incident `"d2"` is updated, the imageless report is preserved, and the
`:id` parameter does not affect the outcome. -/
theorem verifyImageRoute_updates_every_matching_report_witness :
    { (⟨2, "d2", "b", "c2", some "http.img", "pending"⟩ : Report) with verification_status := (verifyImageRoute okProvider (emptyStore VerificationResult) 0 "d1" "http.img" sampleReports).response.status } ∈ (verifyImageRoute okProvider (emptyStore VerificationResult) 0 "d1" "http.img" sampleReports).reports ∧
    (⟨3, "d1", "a", "c3", none, "pending"⟩ : Report) ∈ (verifyImageRoute okProvider (emptyStore VerificationResult) 0 "d1" "http.img" sampleReports).reports ∧
    verifyImageRoute okProvider (emptyStore VerificationResult) 0 "other" "http.img" sampleReports = verifyImageRoute okProvider (emptyStore VerificationResult) 0 "d1" "http.img" sampleReports := by
  have h := verifyImageRoute_updates_every_matching_report okProvider
    (emptyStore VerificationResult) 0 "d1" "http.img" sampleReports
  exact ⟨h.1 ⟨2, "d2", "b", "c2", some "http.img", "pending"⟩ (by simp [sampleReports]) rfl,
    h.2.1 ⟨3, "d1", "a", "c3", none, "pending"⟩ (by simp [sampleReports]) (by simp),
    h.2.2 "other"⟩

/-- C10: on a provider failure (cache miss, thrown provider error) the
degraded result's status `pending` is written to every report whose
`image_url` matches — in particular a report previously marked `verified`
is transitioned back to `pending`, so `verification_status` is not
monotone away from `pending`. -/
theorem verifyImageRoute_failure_reverts_to_pending (env : VerifyProvider)
    (store : CacheStore VerificationResult) (now : Int)
    (disasterId : String) (url : String) (reports : List Report)
    (r : Report)
    (hmiss : getCache store now ("verify_image_" ++ url) = none)
    (hfail : env.generate url = .error ())
    (hr : r ∈ reports) (hmatch : r.image_url = some url) :
    (verifyImageRoute env store now disasterId url reports).response.status = "pending" ∧
    { r with verification_status := "pending" } ∈
      (verifyImageRoute env store now disasterId url reports).reports := by
  have hv := verifyImageWithGemini_failure env store now url hmiss hfail
  have hstatus : (verifyImageRoute env store now disasterId url reports).response.status = "pending" := by
    unfold verifyImageRoute
    rw [hv]
  refine ⟨hstatus, ?_⟩
  have hmem := List.mem_map_of_mem
    (fun r : Report =>
      if r.image_url = some url then
        { r with verification_status := "pending" }
      else r) hr
  unfold verifyImageRoute
  rw [hv]
  simpa [updateReportsByImageUrl, hmatch] using hmem

/-- Witness for C10: a report already marked `verified` for the URL is
reverted to `pending` by a failed verification of the same URL. -/
theorem verifyImageRoute_failure_reverts_to_pending_witness :
    (verifyImageRoute ⟨fun _ => .error (), 0⟩ (emptyStore VerificationResult) 0 "d1" "http.img" [⟨1, "d1", "a", "c1", some "http.img", "verified"⟩]).response.status = "pending" ∧
    (⟨1, "d1", "a", "c1", some "http.img", "pending"⟩ : Report) ∈
      (verifyImageRoute ⟨fun _ => .error (), 0⟩ (emptyStore VerificationResult) 0 "d1" "http.img" [⟨1, "d1", "a", "c1", some "http.img", "verified"⟩]).reports :=
  verifyImageRoute_failure_reverts_to_pending ⟨fun _ => .error (), 0⟩
    (emptyStore VerificationResult) 0 "d1" "http.img"
    [⟨1, "d1", "a", "c1", some "http.img", "verified"⟩]
    ⟨1, "d1", "a", "c1", some "http.img", "verified"⟩ rfl rfl
    (by simp) rfl

/-! ## Resource Locator (`GET /disasters/:id/resources`) -/

/-- The persistence collaborator behind the resources route: the plain
filtered scan (`from('resources').select('*').eq('disaster_id', id)`) and
the PostGIS proximity RPC (`rpc('get_nearby_resources', ...)`), each of
which can error. -/
structure ResourceBackend (R : Type) where
  plainQuery : String → Except Unit (List R)
  nearbyRpc : String → ℚ → ℚ → Int → Except Unit (List R)

/-- HTTP result of the resources route: 200 with the rows, or 500 with an
error message. -/
inductive ResourcesResponse (R : Type)
  | ok (data : List R)
  | serverError (error : String)
deriving DecidableEq

/-- The `GET /disasters/:id/resources` handler from App.js: with `lat` and
`lng` present in the query, attempt the proximity RPC with
`radius = 10000` meters when unspecified; if the RPC errors, fall back to
the plain filtered scan (throwing — hence 500 — only if the fallback
itself errors); without coordinates, run the plain filtered scan
directly. -/
def resourcesRoute {R : Type} (backend : ResourceBackend R)
    (disasterId : String) (latlng : Option (ℚ × ℚ))
    (radiusParam : Option Int) : ResourcesResponse R :=
  let radius := radiusParam.getD 10000
  match latlng with
  | some (lat, lng) =>
    match backend.nearbyRpc disasterId lat lng radius with
    | .ok data => .ok data
    | .error _ =>
      match backend.plainQuery disasterId with
      | .ok fallbackData => .ok fallbackData
      | .error _ => .serverError "Failed to fetch resources"
  | none =>
    match backend.plainQuery disasterId with
    | .ok data => .ok data
    | .error _ => .serverError "Failed to fetch resources"

/-- C6: when the proximity RPC fails for the supplied coordinates, the
route returns exactly what the no-coordinates mode returns (the plain
filter of resources by incident id), and the RPC failure itself is never
surfaced: whenever the plain filter succeeds, the caller gets its rows
with a 200. -/
theorem resourcesRoute_rpc_failure_falls_back {R : Type}
    (backend : ResourceBackend R) (disasterId : String) (lat lng : ℚ)
    (radiusParam : Option Int)
    (hfail : backend.nearbyRpc disasterId lat lng (radiusParam.getD 10000) =
      .error ()) :
    resourcesRoute backend disasterId (some (lat, lng)) radiusParam =
      resourcesRoute backend disasterId none radiusParam ∧
    ∀ d, backend.plainQuery disasterId = .ok d →
      resourcesRoute backend disasterId (some (lat, lng)) radiusParam =
        .ok d := by
  refine ⟨?_, ?_⟩
  · simp [resourcesRoute, hfail]
  · intro d hplain
    simp [resourcesRoute, hfail, hplain]

/-- A backend whose proximity RPC always errors while the plain filter
returns rows `[1, 2]` (resources abstracted to numeric ids). -/
def failingRpcBackend : ResourceBackend Nat :=
  ⟨fun _ => .ok [1, 2], fun _ _ _ _ => .error ()⟩

/-- Witness for C6: the failing-RPC backend at concrete coordinates. -/
theorem resourcesRoute_rpc_failure_falls_back_witness :
    resourcesRoute failingRpcBackend "d1" (some (3, 4)) none =
      resourcesRoute failingRpcBackend "d1" none none ∧
    ∀ d, failingRpcBackend.plainQuery "d1" = .ok d →
      resourcesRoute failingRpcBackend "d1" (some (3, 4)) none = .ok d :=
  resourcesRoute_rpc_failure_falls_back failingRpcBackend "d1" 3 4 none rfl

/-! ## Incident creation (`POST /disasters`) and the realtime broadcast -/

/-- One audit-trail entry, `{action, user_id, timestamp}`. -/
structure AuditEntry where
  action : String
  user_id : String
  timestamp : Int
deriving DecidableEq

/-- The row inserted into the `disasters` table by `POST /disasters`.  The
`location` column holds the geocoded point when one was found (the WKT
`POINT(lng lat)` string is abstracted to the coordinate pair it prints). -/
structure DisasterRow where
  title : String
  location_name : String
  location : Option Coords
  description : String
  tags : List String
  owner_id : String
  audit_trail : List AuditEntry
deriving DecidableEq

/-- Request body of `POST /disasters`; `owner_id` destructures with the
default `'netrunnerX'` when absent. -/
structure CreateDisasterBody where
  title : String
  location_name : String
  description : String
  tags : List String
  owner_id : Option String
deriving DecidableEq

/-- The persistence collaborator's
`from('disasters').insert(row).select().single()`: returns the persisted
row or an error. -/
structure DisasterPersistence where
  insert : DisasterRow → Except Unit DisasterRow

/-- Observable persistence/broadcast steps of the handler, in the order
they happen: the insert returning (confirmed or failed), and an
`io.emit(event, {action, ...})` broadcast. -/
inductive Obs
  | insertOk
  | insertFail
  | emit (event : String) (action : String)
deriving DecidableEq

/-- HTTP result of `POST /disasters`: 200 with the persisted row, or 500
with an error message. -/
inductive CreateResponse
  | ok (data : DisasterRow)
  | serverError (error : String)
deriving DecidableEq

/-- The geocoding prelude of the `POST /disasters` handler together with
the row it inserts: `location` stays null for a falsy (empty)
`location_name` or an unresolvable one, and `audit_trail` is the fresh
singleton `[{action: 'create', user_id: owner_id, timestamp}]`.  Returns
the row and the geocode cache store after the prelude. -/
def disasterInsertRow (geoEnv : GeoProvider) (geocodeStore : CacheStore Coords)
    (now : Int) (body : CreateDisasterBody) :
    DisasterRow × CacheStore Coords :=
  let ownerId := body.owner_id.getD "netrunnerX"
  let geo : Option Coords × CacheStore Coords :=
    if body.location_name = "" then (none, geocodeStore)
    else
      let g := geocodeLocation geoEnv geocodeStore now body.location_name
      (g.result, g.store)
  (⟨body.title, body.location_name, geo.1, body.description, body.tags,
      ownerId, [⟨"create", ownerId, now⟩]⟩,
    geo.2)

/-- Outcome of one `POST /disasters` request: the response, the geocode
cache store after the request, and the ordered trace of persistence and
broadcast steps. -/
structure CreateOutcome where
  response : CreateResponse
  geocodeStore : CacheStore Coords
  trace : List Obs

/-- The `POST /disasters` handler from App.js: geocode the location name,
insert the row; when the insert errors it throws into the catch which
responds 500 (no broadcast); when the insert confirms, emit one
`disaster_updated {action: 'create', disaster: data}` broadcast and
respond with the row. -/
def createDisasterRoute (geoEnv : GeoProvider) (pers : DisasterPersistence)
    (geocodeStore : CacheStore Coords) (now : Int)
    (body : CreateDisasterBody) : CreateOutcome :=
  let rowStore := disasterInsertRow geoEnv geocodeStore now body
  match pers.insert rowStore.1 with
  | .ok data =>
      ⟨.ok data, rowStore.2, [.insertOk, .emit "disaster_updated" "create"]⟩
  | .error _ =>
      ⟨.serverError "Failed to create disaster", rowStore.2, [.insertFail]⟩

/-- Number of broadcast events in a trace. -/
def emitCount (trace : List Obs) : Nat :=
  (trace.filter fun o =>
    match o with
    | .emit _ _ => true
    | _ => false).length

/-- C8: when the persistence write confirms, the handler's observable
trace is exactly the confirmed insert followed by one
`disaster_updated/create` broadcast — so exactly one create-action event
is emitted, and it is emitted only after the write is confirmed; when the
write fails, the trace is the failed insert alone and zero broadcast
events are emitted. -/
theorem createDisaster_broadcast_after_confirmed_write
    (geoEnv : GeoProvider) (pers : DisasterPersistence)
    (geocodeStore : CacheStore Coords) (now : Int)
    (body : CreateDisasterBody) :
    (∀ d, pers.insert (disasterInsertRow geoEnv geocodeStore now body).1 = .ok d →
      (createDisasterRoute geoEnv pers geocodeStore now body).trace =
          [.insertOk, .emit "disaster_updated" "create"] ∧
        emitCount (createDisasterRoute geoEnv pers geocodeStore now body).trace = 1) ∧
    (pers.insert (disasterInsertRow geoEnv geocodeStore now body).1 = .error () →
      (createDisasterRoute geoEnv pers geocodeStore now body).trace =
          [.insertFail] ∧
        emitCount (createDisasterRoute geoEnv pers geocodeStore now body).trace = 0) := by
  constructor
  · intro d hok
    constructor
    · simp [createDisasterRoute, hok]
    · simp [createDisasterRoute, hok, emitCount]
  · intro hfail
    constructor
    · simp [createDisasterRoute, hfail]
    · simp [createDisasterRoute, hfail, emitCount]

/-- A persistence collaborator that confirms every insert, echoing the
row. -/
def okPersistence : DisasterPersistence := ⟨fun row => .ok row⟩

/-- A persistence collaborator whose insert always errors. -/
def failPersistence : DisasterPersistence := ⟨fun _ => .error ()⟩

/-- A concrete `POST /disasters` body with no explicit owner. -/
def sampleBody : CreateDisasterBody :=
  ⟨"Flood", "Manhattan", "Street flooding", ["flood"], none⟩

/-- Witness for C8: the sample body against a confirming collaborator and
against a failing one (the geocoding provider errors, leaving `location`
null, which does not affect the broadcast behaviour). -/
theorem createDisaster_broadcast_after_confirmed_write_witness :
    (createDisasterRoute ⟨fun _ => .error ()⟩ okPersistence (emptyStore Coords) 0 sampleBody).trace = [.insertOk, .emit "disaster_updated" "create"] ∧
    emitCount (createDisasterRoute ⟨fun _ => .error ()⟩ okPersistence (emptyStore Coords) 0 sampleBody).trace = 1 ∧
    (createDisasterRoute ⟨fun _ => .error ()⟩ failPersistence (emptyStore Coords) 0 sampleBody).trace = [.insertFail] ∧
    emitCount (createDisasterRoute ⟨fun _ => .error ()⟩ failPersistence (emptyStore Coords) 0 sampleBody).trace = 0 := by
  have hok := (createDisaster_broadcast_after_confirmed_write
    ⟨fun _ => .error ()⟩ okPersistence (emptyStore Coords) 0 sampleBody).1
    (disasterInsertRow ⟨fun _ => .error ()⟩ (emptyStore Coords) 0 sampleBody).1 rfl
  have hfail := (createDisaster_broadcast_after_confirmed_write
    ⟨fun _ => .error ()⟩ failPersistence (emptyStore Coords) 0 sampleBody).2 rfl
  exact ⟨hok.1, hok.2, hfail.1, hfail.2⟩

end DisasterPlatform
